import Mathlib

/-!
Verification of the ConsultEase faculty-unit firmware against its
natural-language specification.

The development shallowly embeds the firmware's presence detection
(`ble_scanner.cpp`), MQTT publishing (`mqtt_handler.cpp` and the main
`loop()` of the `.ino` sketch), status handling (`updateStatus`,
`publishStatus`), request dispatch (`internalMqttCallback`) and the
faculty-id setter (`set_faculty_id`).  Machine integers (`unsigned long`
on the ESP32 is 32 bits) are modelled as `Nat` with explicit reduction
modulo `2 ^ 32` where the C code relies on unsigned wraparound.
-/

namespace ConsultEase

/-! ## Configuration constants (`config.h` and the `.ino` globals) -/

/-- `2 ^ 32`: the modulus of the ESP32's `unsigned long` / `millis()`. -/
def U32 : Nat := 4294967296

/-- The literal `0xFFFFFFFF` used in `BLEScanner::is_present`. -/
def MAX_TICK : Nat := 4294967295

/-- `PRESENCE_TIMEOUT_MS` from `config.h`. -/
def PRESENCE_TIMEOUT_MS : Nat := 15000

/-- `FACULTY_ID` from `config.h`, used by the main loop's presence publish. -/
def FACULTY_ID : String := "prof_smith"

/-- The `.ino` global `const char* faculty_id`, used by `publishStatus`. -/
def faculty_id : String := "faculty1"

/-- `snprintf(buf, _, MQTT_STATUS_TOPIC_TEMPLATE, id)` with the template
`"consultease/faculty/%s/status"` from `config.h`. -/
def mqtt_status_topic (id : String) : String :=
  "consultease/faculty/" ++ id ++ "/status"

/-! ## `BLEScanner` (`ble_scanner.cpp`)

The scanner's state is the single field `last_seen_ms`, initialised to `0`
by the constructor and overwritten with `millis()` each time `scan()` sees
the target beacon.  `is_present()` first computes the unsigned 32-bit
difference `current_time - last_seen_ms` (modelled as
`(current_time + U32 - last_seen_ms) % U32`) and compares it with the
timeout, then — when `last_seen_ms > current_time` — overrides the result
with `(0xFFFFFFFF - last_seen_ms) + current_time < PRESENCE_TIMEOUT_MS`. -/

/-- `BLEScanner::is_present`, as a function of the stored `last_seen_ms`
and the sampled `millis()` value (both below `U32`). -/
def is_present (last_seen_ms current_time : Nat) : Bool :=
  if last_seen_ms > current_time then
    decide ((MAX_TICK - last_seen_ms) + current_time < PRESENCE_TIMEOUT_MS)
  else
    decide ((current_time + U32 - last_seen_ms) % U32 < PRESENCE_TIMEOUT_MS)

/-- The `last_seen_ms` field after a run of `scan()` sightings: the
constructor sets it to `0`; every sighting at real time `s` stores
`millis() = s % U32`. -/
def last_seen_after (sightings : List Nat) : Nat :=
  sightings.foldl (fun _ s => s % U32) 0

/-- Spec-side predicate, written from the specification's words: over the
real (non-wrapping) timeline, some sighting in the list happened within
`PRESENCE_TIMEOUT_MS` of the real time `now`. -/
def sighting_within (sightings : List Nat) (now : Nat) : Bool :=
  sightings.any (fun s => s ≤ now && now - s < PRESENCE_TIMEOUT_MS)

end ConsultEase

namespace ConsultEase

/-! ## Claim C1 -/

theorem last_seen_after_append (ss : List Nat) (s : Nat) :
    last_seen_after (ss ++ [s]) = s % U32 := by
  simp [last_seen_after, List.foldl_append]

theorem sighting_within_last (ss : List Nat) (s T : Nat)
    (hmono : ∀ x ∈ ss, x ≤ s) (hsT : s ≤ T) :
    sighting_within (ss ++ [s]) T = true ↔ T - s < PRESENCE_TIMEOUT_MS := by
  unfold sighting_within
  rw [List.any_append]
  simp only [List.any_cons, List.any_nil, Bool.or_false, Bool.or_eq_true,
    List.any_eq_true, Bool.and_eq_true, decide_eq_true_eq]
  constructor
  · rintro (⟨x, hx, hxT, hxto⟩ | ⟨hsle, hslt⟩)
    · have := hmono x hx
      omega
    · exact hslt
  · intro h
    exact Or.inr ⟨hsT, h⟩

theorem is_present_elapsed (a E : Nat) (ha : a < U32) (hE : E < U32) :
    is_present a ((a + E) % U32) = true ↔
      (E < PRESENCE_TIMEOUT_MS ∨ (U32 ≤ a + E ∧ E = PRESENCE_TIMEOUT_MS)) := by
  have hU : U32 = 4294967296 := rfl
  have hM : MAX_TICK = 4294967295 := rfl
  have hP : PRESENCE_TIMEOUT_MS = 15000 := rfl
  unfold is_present
  by_cases hc : a + E < U32
  · have h1 : (a + E) % U32 = a + E := Nat.mod_eq_of_lt hc
    rw [h1, if_neg (by omega)]
    have h3 : (a + E + U32 - a) % U32 = E := by
      have h4 : a + E + U32 - a = E + U32 := by omega
      rw [h4, Nat.add_mod_right, Nat.mod_eq_of_lt hE]
    rw [h3]
    simp only [decide_eq_true_eq]
    omega
  · push_neg at hc
    have h1 : (a + E) % U32 = a + E - U32 := by
      rw [Nat.mod_eq_sub_mod hc, Nat.mod_eq_of_lt (by omega)]
    rw [h1, if_pos (by omega)]
    simp only [decide_eq_true_eq]
    omega

/-- C1, counterexample: in the initial state (no sighting has ever
occurred, `last_seen_ms = 0`) and at `millis() = 100`, `is_present()`
already returns `true`, although no sighting occurred within
`presence_timeout` of `now` — no sighting occurred at all. -/
theorem C1_counterexample :
    is_present (last_seen_after []) (100 % U32) = true ∧
      sighting_within [] 100 = false := by
  exact ⟨by decide, rfl⟩

/-- C1, amended: after at least one sighting (last sighting at real time
`s`, sightings in chronological order, now at real time `T` with elapsed
time at most `MAX_TICK`), `is_present()` returns `true` iff a sighting
occurred within `presence_timeout` of `now`, except that in the wrapped
case (stored timestamp numerically greater than `now`, where the code
computes the elapsed time as `(MAX_TICK - last_presence_change) + now`,
one less than the true elapsed time) it also returns `true` when the
elapsed time equals `presence_timeout` exactly.  Before any sighting,
`is_present()` returns `true` whenever `now < presence_timeout` even
though no sighting occurred. -/
theorem C1_presence_iff :
    (∀ ss s T, (∀ x ∈ ss, x ≤ s) → s ≤ T → T - s ≤ MAX_TICK →
      (is_present (last_seen_after (ss ++ [s])) (T % U32) = true ↔
        (sighting_within (ss ++ [s]) T = true ∨
          (T % U32 < s % U32 ∧ T - s = PRESENCE_TIMEOUT_MS)))) ∧
    (∀ now, now < PRESENCE_TIMEOUT_MS →
      is_present (last_seen_after []) (now % U32) = true) := by
  have hU : U32 = 4294967296 := rfl
  have hM : MAX_TICK = 4294967295 := rfl
  constructor
  · intro ss s T hmono hsT hE
    rw [last_seen_after_append, sighting_within_last ss s T hmono hsT]
    set a := s % U32 with hadef
    set E := T - s with hEdef
    have ha : a < U32 := Nat.mod_lt _ (by omega)
    have hEU : E < U32 := by omega
    have hTnow : T % U32 = (a + E) % U32 := by
      have hT : T = s + E := by omega
      rw [hT, Nat.add_mod, Nat.mod_eq_of_lt hEU]
    rw [hTnow]
    rw [is_present_elapsed a E ha hEU]
    have hwrap : (a + E) % U32 < a ↔ U32 ≤ a + E := by
      by_cases hc : a + E < U32
      · rw [Nat.mod_eq_of_lt hc]
        omega
      · push_neg at hc
        rw [Nat.mod_eq_sub_mod hc, Nat.mod_eq_of_lt (by omega)]
        omega
    rw [hwrap]
  · intro now hnow
    have hP : PRESENCE_TIMEOUT_MS = 15000 := rfl
    have h := is_present_elapsed 0 now (by omega) (by omega)
    simp only [Nat.zero_add] at h
    show is_present 0 (now % U32) = true
    exact h.mpr (Or.inl hnow)

/-- C1, witness for the amended theorem at the concrete run having a single
sighting at real time 0, observed at real time 100, and at the boot state
observed at time 7. -/
theorem C1_presence_iff_witness :
    ((is_present (last_seen_after ([] ++ [0])) (100 % U32) = true ↔
        (sighting_within ([] ++ [0]) 100 = true ∨
          (100 % U32 < 0 % U32 ∧ 100 - 0 = PRESENCE_TIMEOUT_MS))) ∧
      is_present (last_seen_after []) (7 % U32) = true) :=
  ⟨C1_presence_iff.1 [] 0 100 (by simp) (by decide) (by decide),
   C1_presence_iff.2 7 (by decide)⟩

end ConsultEase

namespace ConsultEase

/-! ## `mqtt_handler.cpp`: `publish_message`

`publish_message(topic, payload, retained)` checks `client.connected()`:
when connected it hands the message to the broker, when disconnected it
only prints `"MQTT Client not connected. Cannot publish."` and returns —
the function is `void`, no error value reaches the caller, and the payload
is dropped.  The handler holds no queue of any kind. -/

/-- An MQTT message as handed to `client.publish`. -/
structure Msg where
  topic : String
  payload : String
  retained : Bool
deriving DecidableEq, Repr

/-- `publish_message`: the message actually emitted to the transport
(`none` when the client is disconnected and the payload is dropped). -/
def publish_message (connected : Bool) (topic payload : String)
    (retained : Bool) : Option Msg :=
  if connected then some ⟨topic, payload, retained⟩ else none

/-! ## The presence block of `loop()` (`.ino`, lines 146–166)

Each iteration samples `bleScanner.is_present()`, derives
`current_status_string`, and — only when it differs from the global
`last_published_status` (initialised to `"Unknown"`) — calls
`publish_message` on the `FACULTY_ID` status topic with `retain = true`
and then updates `last_published_status` unconditionally, whether or not
the transport was connected at publish time. -/

/-- `String current_status_string = present ? "Present" : "Unavailable";` -/
def current_status_string (present : Bool) : String :=
  if present then "Present" else "Unavailable"

/-- One pass of the presence block: the new `last_published_status` and
the publish call made (the argument of `publish_message`), if any. -/
def presence_step (last : String) (present : Bool) : String × Option Msg :=
  let s := current_status_string present
  if s = last then (last, none)
  else (s, some ⟨mqtt_status_topic FACULTY_ID, s, true⟩)

/-- The presence block iterated over a sequence of `is_present()` samples:
the final `last_published_status` and the publish calls made, in order. -/
def presence_run (last : String) : List Bool → String × List Msg
  | [] => (last, [])
  | p :: ps =>
    let step := presence_step last p
    let rest := presence_run step.1 ps
    (rest.1, step.2.toList ++ rest.2)

/-- The presence block together with the transport side of
`publish_message`: each iteration carries the connectivity of the MQTT
client at publish time.  On a detected change the emitted message (if
any) replaces the broker's retained value on the status topic;
`last_published_status` is updated in either case.  Returns the final
`last_published_status` and the broker's retained value. -/
def delivered_run (last : String) (retained : Option String) :
    List (Bool × Bool) → String × Option String
  | [] => (last, retained)
  | (p, conn) :: rest =>
    let s := current_status_string p
    if s = last then delivered_run last retained rest
    else
      delivered_run s
        (match publish_message conn (mqtt_status_topic FACULTY_ID) s true with
          | some m => some m.payload
          | none => retained) rest

/-- Every publish call made by the presence block goes to the `FACULTY_ID`
status topic, carries payload `"Present"` or `"Unavailable"`, and has the
retained flag set. -/
theorem presence_run_mem (ps : List Bool) : ∀ (last0 : String),
    ∀ m ∈ (presence_run last0 ps).2,
      m.topic = mqtt_status_topic FACULTY_ID ∧
        (m.payload = "Present" ∨ m.payload = "Unavailable") ∧
        m.retained = true := by
  induction ps with
  | nil => intro last0 m hm; simp [presence_run] at hm
  | cons p ps ih =>
    intro last0 m hm
    simp only [presence_run, presence_step] at hm
    by_cases hc : current_status_string p = last0
    · rw [if_pos hc] at hm
      simp only [Option.toList_none, List.nil_append] at hm
      exact ih last0 m hm
    · rw [if_neg hc] at hm
      simp only [Option.toList_some, List.cons_append, List.nil_append,
        List.mem_cons] at hm
      rcases hm with rfl | hm
      · refine ⟨rfl, ?_, rfl⟩
        cases p <;> simp [current_status_string]
      · exact ih _ m hm

/-! ## Claim C2 -/

/-- C2, counterexample: when the beacon is not detected, the presence
status message published on the unit's status topic carries the payload
`"Unavailable"` — not `"Absent"` (and not `"Present"`). -/
theorem C2_counterexample :
    (presence_run "Unknown" [false]).2 =
        [⟨mqtt_status_topic FACULTY_ID, "Unavailable", true⟩] ∧
      "Unavailable" ≠ "Present" ∧ "Unavailable" ≠ "Absent" :=
  ⟨by decide, by decide, by decide⟩

/-- C2, amended: every presence status message published by the unit on
the status topic for its faculty id carries exactly the payload
`"Present"` or `"Unavailable"` (not `"Absent"`) and is published with the
retained flag set. -/
theorem C2_presence_payloads (ps : List Bool) (last0 : String) :
    ∀ m ∈ (presence_run last0 ps).2,
      m.topic = mqtt_status_topic FACULTY_ID ∧
        (m.payload = "Present" ∨ m.payload = "Unavailable") ∧
        m.retained = true :=
  presence_run_mem ps last0

/-- C2, witness: the single message of the one-sample run `[false]` from
the initial state satisfies the amended property. -/
theorem C2_presence_payloads_witness :
    Msg.mk (mqtt_status_topic FACULTY_ID) "Unavailable" true ∈
        (presence_run "Unknown" [false]).2 ∧
      ((Msg.mk (mqtt_status_topic FACULTY_ID) "Unavailable" true).topic =
          mqtt_status_topic FACULTY_ID ∧
        ((Msg.mk (mqtt_status_topic FACULTY_ID) "Unavailable" true).payload
              = "Present" ∨
          (Msg.mk (mqtt_status_topic FACULTY_ID) "Unavailable" true).payload
              = "Unavailable") ∧
        (Msg.mk (mqtt_status_topic FACULTY_ID) "Unavailable" true).retained
            = true) :=
  ⟨by decide, C2_presence_payloads [false] "Unknown" _ (by decide)⟩

/-! ## Claim C4 -/

theorem presence_run_chain_aux (ps : List Bool) : ∀ (last0 : String),
    List.Chain' (fun a b : Msg => a.payload ≠ b.payload)
        (presence_run last0 ps).2 ∧
      (∀ m ∈ (presence_run last0 ps).2.head?, m.payload ≠ last0) := by
  induction ps with
  | nil => intro last0; simp [presence_run]
  | cons p ps ih =>
    intro last0
    simp only [presence_run, presence_step]
    by_cases hc : current_status_string p = last0
    · rw [if_pos hc]
      simpa using ih last0
    · rw [if_neg hc]
      simp only [Option.toList_some, List.cons_append, List.nil_append]
      refine ⟨List.chain'_cons'.mpr ⟨?_, (ih _).1⟩, ?_⟩
      · intro m hm
        exact fun h => (ih _).2 m hm h.symm
      · intro m hm
        simp only [List.head?_cons, Option.mem_def, Option.some.injEq] at hm
        rw [← hm]
        exact hc

/-- C4, confirmed: over any sequence of presence samples the presence
block never makes two consecutive publish calls with the same payload;
a publish call is made exactly when the derived `current_status_string`
differs from `last_published_status`, which is then updated to it. -/
theorem C4_no_consecutive_duplicates :
    (∀ (ps : List Bool) (last0 : String),
      List.Chain' (fun a b : Msg => a.payload ≠ b.payload)
        (presence_run last0 ps).2) ∧
    (∀ last p, current_status_string p = last →
      presence_step last p = (last, none)) ∧
    (∀ last p, current_status_string p ≠ last →
      presence_step last p =
        (current_status_string p,
          some ⟨mqtt_status_topic FACULTY_ID, current_status_string p, true⟩)) := by
  refine ⟨fun ps last0 => (presence_run_chain_aux ps last0).1, ?_, ?_⟩
  · intro last p h
    simp [presence_step, h]
  · intro last p h
    simp [presence_step, h]

/-- C4, witness: a run whose samples repeat each value, and both
branches of the change-detection rule, at concrete inputs. -/
theorem C4_no_consecutive_duplicates_witness :
    List.Chain' (fun a b : Msg => a.payload ≠ b.payload)
        (presence_run "Unknown" [true, true, false, false, true]).2 ∧
      presence_step "Present" true = ("Present", none) ∧
      presence_step "Present" false =
        ("Unavailable",
          some ⟨mqtt_status_topic FACULTY_ID, "Unavailable", true⟩) :=
  ⟨C4_no_consecutive_duplicates.1 [true, true, false, false, true] "Unknown",
   C4_no_consecutive_duplicates.2.1 "Present" true (by decide),
   by
    have h := C4_no_consecutive_duplicates.2.2 "Present" false (by decide)
    simpa [current_status_string] using h⟩

/-! ## Claim C5 -/

/-- C5, counterexample: one iteration with the beacon present while the
transport is disconnected updates `last_published_status` from
`"Unknown"` to `"Present"` although no StatusRecord was emitted — the
broker's retained value is still empty, so a late-joining subscriber does
not learn the current state. -/
theorem C5_counterexample :
    delivered_run "Unknown" none [(true, false)] = ("Present", none) ∧
      "Present" ≠ "Unknown" :=
  ⟨by decide, by decide⟩

/-- C5, amended: `last_published_status` is updated on every detected
change whether or not the message was actually emitted to the transport;
only when the transport is connected at every iteration does the broker's
retained value track the publisher — after any such run it either is
untouched (no change was ever detected) or equals the final
`last_published_status`, the most recent real change. -/
theorem C5_retained_when_connected (inputs : List (Bool × Bool))
    (hconn : ∀ i ∈ inputs, i.2 = true) :
    ∀ (last0 : String) (r0 : Option String),
      ((delivered_run last0 r0 inputs).1 = last0 ∧
          (delivered_run last0 r0 inputs).2 = r0) ∨
        (delivered_run last0 r0 inputs).2 =
          some (delivered_run last0 r0 inputs).1 := by
  induction inputs with
  | nil => intro last0 r0; exact Or.inl ⟨rfl, rfl⟩
  | cons i rest ih =>
    intro last0 r0
    obtain ⟨p, conn⟩ := i
    have hc : conn = true := hconn (p, conn) (List.mem_cons_self _ _)
    subst hc
    have hrest : ∀ j ∈ rest, j.2 = true := fun j hj =>
      hconn j (List.mem_cons_of_mem _ hj)
    simp only [delivered_run]
    by_cases hs : current_status_string p = last0
    · rw [if_pos hs]
      exact ih hrest last0 r0
    · rw [if_neg hs]
      have hpub :
          (match publish_message true (mqtt_status_topic FACULTY_ID)
              (current_status_string p) true with
            | some m => some m.payload
            | none => r0) = some (current_status_string p) := rfl
      rw [hpub]
      rcases ih hrest (current_status_string p) (some (current_status_string p))
          with ⟨h1, h2⟩ | h
      · exact Or.inr (by rw [h1, h2])
      · exact Or.inr h

/-- C5, witness: a fully connected run with one change: the retained
value equals the final `last_published_status`. -/
theorem C5_retained_when_connected_witness :
    ((delivered_run "Unknown" none [(true, true)]).1 = "Unknown" ∧
        (delivered_run "Unknown" none [(true, true)]).2 = none) ∨
      (delivered_run "Unknown" none [(true, true)]).2 =
        some (delivered_run "Unknown" none [(true, true)]).1 :=
  C5_retained_when_connected [(true, true)] (by decide) "Unknown" none

/-! ## Claim C7 -/

/-- C7, counterexample: a publish call made while the transport is
disconnected emits nothing — `publish_message` is `void`, returns no
`NotConnected` error, and queues nothing (the firmware has no retry
queue) — and the run `[(present, disconnected), (present, connected)]`
shows the dropped `"Present"` record is never delivered even after the
transport comes back: the write vanished silently. -/
theorem C7_counterexample :
    publish_message false (mqtt_status_topic FACULTY_ID) "Present" true
        = none ∧
      delivered_run "Unknown" none [(true, false), (true, true)] =
        ("Present", none) :=
  ⟨rfl, by decide⟩

/-- C7, amended: an outbound status publish attempted while the transport
is disconnected is silently dropped: `publish_message` emits nothing and
surfaces no error, nothing is enqueued for retry, and because
`last_published_status` is still updated the loop continues as if the
publish had happened, so the lost value is not re-sent on reconnect. -/
theorem C7_disconnected_drop :
    (∀ topic payload r, publish_message false topic payload r = none) ∧
    (∀ (last0 : String) (r0 : Option String) (p : Bool)
        (rest : List (Bool × Bool)),
      current_status_string p ≠ last0 →
        delivered_run last0 r0 ((p, false) :: rest) =
          delivered_run (current_status_string p) r0 rest) := by
  refine ⟨fun topic payload r => rfl, ?_⟩
  intro last0 r0 p rest h
  simp [delivered_run, publish_message, if_neg h]

/-- C7, witness: the drop path at a concrete disconnected iteration. -/
theorem C7_disconnected_drop_witness :
    publish_message false "t" "x" true = none ∧
      delivered_run "Unknown" none [(true, false)] =
        delivered_run (current_status_string true) none [] :=
  ⟨C7_disconnected_drop.1 "t" "x" true,
   C7_disconnected_drop.2 "Unknown" none true [] (by decide)⟩

end ConsultEase

namespace ConsultEase

/-! ## `updateStatus` / `publishStatus` (`.ino`, lines 294–322 and 364–385)

`updateStatus(newStatus)` handles the *manual* status (buttons or remote
`set_status` command).  It returns immediately when the status is
unchanged; otherwise it sets `currentStatus`, drives the three status
LEDs, publishes the manual status record via `publishStatus()`, and — when
Firebase is connected — writes `currentStatus` to the RTDB path
`faculty/<faculty_id>/status`.  `publishStatus()` serialises
`{status, name, department, timestamp}` and publishes it retained to
`snprintf(MQTT_STATUS_TOPIC_TEMPLATE, faculty_id)` — note the `.ino`
global `faculty_id` (`"faculty1"`), not the `config.h` macro `FACULTY_ID`
(`"prof_smith"`) used by the presence publish in `loop()`. -/

/-- The JSON payload built by `publishStatus` (ArduinoJson serialises the
members in insertion order). -/
def statusPayload (currentStatus : String) (timestamp : Nat) : String :=
  "\x7b\"status\":\"" ++ currentStatus ++
    "\",\"name\":\"John Doe\",\"department\":\"Computer Science\",\"timestamp\":"
    ++ toString timestamp ++ "\x7d"

/-- `publishStatus()`: the manual status record handed to
`publish_message` (dropped when the client is disconnected). -/
def publishStatus (connected : Bool) (currentStatus : String)
    (nowMs : Nat) : Option Msg :=
  publish_message connected (mqtt_status_topic faculty_id)
    (statusPayload currentStatus nowMs) true

/-- The device state touched by `updateStatus`: the manual status, the
three status LEDs, the messages delivered to the MQTT transport so far,
and the Firebase RTDB value at `faculty/<faculty_id>/status` (`none`
before any write). -/
structure DeviceState where
  currentStatus : String
  ledAvailable : Bool
  ledBusy : Bool
  ledAway : Bool
  mqttOutbox : List Msg
  firebaseStatus : Option String
deriving DecidableEq, Repr

/-- `updateStatus(newStatus)`. -/
def updateStatus (st : DeviceState) (connected firebaseConnected : Bool)
    (nowMs : Nat) (newStatus : String) : DeviceState :=
  if newStatus = st.currentStatus then st
  else
    { currentStatus := newStatus
      ledAvailable := newStatus == "available"
      ledBusy := newStatus == "busy"
      ledAway := newStatus == "away"
      mqttOutbox := st.mqttOutbox ++ (publishStatus connected newStatus nowMs).toList
      firebaseStatus := if firebaseConnected then some newStatus
        else st.firebaseStatus }

/-! ## Claim C3 -/

/-- C3, confirmed: every publish made by the BLE presence path goes to
`consultease/faculty/prof_smith/status` (template applied to the
`config.h` macro `FACULTY_ID`), every publish made by the manual-status
path goes to `consultease/faculty/faculty1/status` (template applied to
the `.ino` global `faculty_id`), and the two topics are distinct — though
only because the two id constants differ: both paths instantiate the same
`MQTT_STATUS_TOPIC_TEMPLATE`. -/
theorem C3_distinct_topics :
    (∀ (ps : List Bool) (last0 : String), ∀ m ∈ (presence_run last0 ps).2,
      m.topic = mqtt_status_topic FACULTY_ID) ∧
    (∀ st c f n s, ∀ m ∈ (updateStatus st c f n s).mqttOutbox,
      m ∈ st.mqttOutbox ∨ m.topic = mqtt_status_topic faculty_id) ∧
    mqtt_status_topic FACULTY_ID ≠ mqtt_status_topic faculty_id := by
  refine ⟨fun ps last0 m hm => (presence_run_mem ps last0 m hm).1, ?_, by decide⟩
  intro st c f n s m hm
  simp only [updateStatus] at hm
  by_cases h : s = st.currentStatus
  · rw [if_pos h] at hm
    exact Or.inl hm
  · rw [if_neg h] at hm
    rcases List.mem_append.mp hm with h1 | h2
    · exact Or.inl h1
    · right
      cases c with
      | false => simp [publishStatus, publish_message] at h2
      | true =>
        simp only [publishStatus, publish_message, if_true, Option.toList_some,
          List.mem_singleton] at h2
        subst h2
        rfl

/-- C3, witness: both halves of the claim at concrete publishes. -/
theorem C3_distinct_topics_witness :
    (Msg.mk (mqtt_status_topic FACULTY_ID) "Present" true).topic =
        mqtt_status_topic FACULTY_ID ∧
      (Msg.mk (mqtt_status_topic faculty_id) (statusPayload "busy" 5) true ∈
          (DeviceState.mk "available" true false false [] none).mqttOutbox ∨
        (Msg.mk (mqtt_status_topic faculty_id) (statusPayload "busy" 5)
            true).topic = mqtt_status_topic faculty_id) :=
  ⟨C3_distinct_topics.1 [true] "Unknown" _ (by decide),
   C3_distinct_topics.2.1 (DeviceState.mk "available" true false false [] none)
     true true 5 "busy" _ (by decide)⟩

/-! ## Claim C9 -/

/-- C9, confirmed: calling `updateStatus` with the current manual status
is a complete no-op — the early `return` fires before the LEDs are
driven, before `publishStatus()` and before the Firebase write, so the
whole device state is unchanged. -/
theorem C9_updateStatus_noop (st : DeviceState) (c f : Bool) (n : Nat)
    (s : String) (h : s = st.currentStatus) :
    updateStatus st c f n s = st := by
  simp [updateStatus, h]

/-- C9, witness: the no-op at a concrete state. -/
theorem C9_updateStatus_noop_witness :
    updateStatus (DeviceState.mk "available" true false false [] none)
        true true 5 "available" =
      DeviceState.mk "available" true false false [] none :=
  C9_updateStatus_noop _ true true 5 "available" rfl

end ConsultEase

namespace ConsultEase

/-! ## `internalMqttCallback` on the request topic (`mqtt_handler.cpp`)

For a message on `MQTT_REQUEST_TOPIC` the handler deserialises the JSON
payload (returning on a parse error), extracts
`doc["student_id"]` and `doc["request_text"]` as C strings — ArduinoJson
yields a null pointer when the key is absent or its value is not a string
— returns when either is null, and otherwise calls
`DisplayManager::show_request(student_id, request_text)` once with the
two strings verbatim.  No emptiness check is performed. -/

/-- A parsed JSON value as seen through `as<const char*>`: a string, or
anything else (absent handling happens at lookup). -/
inductive JVal where
  | str (s : String) : JVal
  | nonstring : JVal
deriving DecidableEq, Repr

/-- `doc[key]` followed by `as<const char*>`: the value of the first
binding of `key` when it is a string, and null (`none`) otherwise. -/
def getStr : List (String × JVal) → String → Option String
  | [], _ => none
  | (k, v) :: rest, key =>
    if k = key then
      match v with
      | JVal.str s => some s
      | JVal.nonstring => none
    else getStr rest key

/-- The request branch of `internalMqttCallback`: input is the
deserialisation result (`none` = `DeserializationError`), output is the
single `DisplayManager::show_request(student_id, request_text)` call made,
if any. -/
def internalMqttCallbackRequest (parsed : Option (List (String × JVal))) :
    Option (String × String) :=
  match parsed with
  | none => none
  | some doc =>
    match getStr doc "student_id", getStr doc "request_text" with
    | some sid, some txt => some (sid, txt)
    | _, _ => none

/-! ## Claim C6 -/

/-- C6, counterexample: the spec's well-formed payload
`{"student_id":"s1","text":"need help"}` — valid JSON with non-empty
string `student_id` and non-empty string `text` — produces no display
call at all: the code reads the field `request_text`, not `text`. -/
theorem C6_counterexample :
    internalMqttCallbackRequest
        (some [("student_id", JVal.str "s1"), ("text", JVal.str "need help")])
        = none ∧
      getStr [("student_id", JVal.str "s1"), ("text", JVal.str "need help")]
          "student_id" = some "s1" ∧
      getStr [("student_id", JVal.str "s1"), ("text", JVal.str "need help")]
          "text" = some "need help" ∧
      "s1" ≠ "" ∧ "need help" ≠ "" :=
  ⟨by decide, by decide, by decide, by decide, by decide⟩

/-- C6, amended: the display surface is invoked exactly once, with the two
strings verbatim, if and only if the payload is valid JSON whose
`student_id` and `request_text` fields are strings (the code requires the
field `request_text`, not `text`, and does not check for emptiness);
every other payload — parse error, missing field, non-string field — is
rejected with no display call. -/
theorem C6_request_dispatch (parsed : Option (List (String × JVal)))
    (sid txt : String) :
    internalMqttCallbackRequest parsed = some (sid, txt) ↔
      ∃ doc, parsed = some doc ∧ getStr doc "student_id" = some sid ∧
        getStr doc "request_text" = some txt := by
  cases parsed with
  | none => simp [internalMqttCallbackRequest]
  | some doc =>
    simp only [internalMqttCallbackRequest, Option.some.injEq]
    cases h1 : getStr doc "student_id" with
    | none => simp [h1]
    | some sid' =>
      cases h2 : getStr doc "request_text" with
      | none => simp [h1, h2]
      | some txt' => simp [h1, h2, Prod.ext_iff, eq_comm]

/-! ## `set_faculty_id` (`mqtt_handler.cpp`, lines 127–132)

`strncpy(facultyId, id, sizeof(facultyId) - 1)` into the 32-byte buffer
`char facultyId[32]`, then `facultyId[31] = '\0'`.  `strncpy` copies at
most 31 characters and pads the remainder of the 31-byte region with null
bytes when the source is shorter. -/

/-- The 31-byte region written by `strncpy(facultyId, id, 31)`. -/
def strncpy_pad (src : List Char) (n : Nat) : List Char :=
  src.take n ++ List.replicate (n - src.length) '\x00'

/-- The whole 32-byte `facultyId` buffer after `set_faculty_id(id)`. -/
def set_faculty_id (id : List Char) : List Char :=
  strncpy_pad id 31 ++ ['\x00']

/-- The C-string value of a buffer: its characters up to the first null. -/
def c_str (buf : List Char) : List Char :=
  buf.takeWhile (fun c => c != '\x00')

theorem takeWhile_append_null (l rest : List Char)
    (h : ∀ c ∈ l, c ≠ '\x00') :
    (l ++ '\x00' :: rest).takeWhile (fun c => c != '\x00') = l := by
  induction l with
  | nil => simp
  | cons a l ih =>
    have ha : a ≠ '\x00' := h a (List.mem_cons_self a l)
    simp only [List.cons_append, List.takeWhile_cons]
    rw [if_pos (by simpa using ha)]
    rw [ih fun c hc => h c (List.mem_cons_of_mem a hc)]

theorem set_faculty_id_split (id : List Char) :
    ∃ rest, set_faculty_id id = id.take 31 ++ '\x00' :: rest := by
  unfold set_faculty_id strncpy_pad
  cases hk : 31 - id.length with
  | zero => exact ⟨[], by simp [hk]⟩
  | succ k =>
    exact ⟨List.replicate k '\x00' ++ ['\x00'],
      by simp [hk, List.replicate_succ, List.append_assoc]⟩

/-- C10, confirmed: for every id (a C string, hence free of null bytes),
`set_faculty_id` leaves the 32-byte `facultyId` buffer null-terminated,
its stored C-string value equal to the first `min(length(id), 31)`
characters of `id`; longer ids are silently truncated and the buffer
never overflows. -/
theorem C10_set_faculty_id (id : List Char) (h : '\x00' ∉ id) :
    (set_faculty_id id).length = 32 ∧
      (set_faculty_id id).getLast? = some '\x00' ∧
      c_str (set_faculty_id id) = id.take 31 ∧
      (c_str (set_faculty_id id)).length = min id.length 31 := by
  obtain ⟨rest, hsplit⟩ := set_faculty_id_split id
  have htake : ∀ c ∈ id.take 31, c ≠ '\x00' := fun c hc heq =>
    h (heq ▸ List.take_subset 31 id hc)
  have hcstr : c_str (set_faculty_id id) = id.take 31 := by
    rw [hsplit]
    exact takeWhile_append_null _ rest htake
  refine ⟨?_, ?_, hcstr, ?_⟩
  · unfold set_faculty_id strncpy_pad
    simp only [List.length_append, List.length_take, List.length_replicate,
      List.length_cons, List.length_nil]
    omega
  · unfold set_faculty_id
    rw [List.getLast?_append]
    rfl
  · rw [hcstr, List.length_take]
    omega

/-- C10, witness: a 40-character id is truncated to its first 31
characters inside the null-terminated 32-byte buffer. -/
theorem C10_set_faculty_id_witness :
    (set_faculty_id (List.replicate 40 'a')).length = 32 ∧
      (set_faculty_id (List.replicate 40 'a')).getLast? = some '\x00' ∧
      c_str (set_faculty_id (List.replicate 40 'a')) =
        (List.replicate 40 'a').take 31 ∧
      (c_str (set_faculty_id (List.replicate 40 'a'))).length =
        min (List.replicate 40 'a').length 31 :=
  C10_set_faculty_id (List.replicate 40 'a') (by decide)

end ConsultEase

namespace ConsultEase

/-! ## ResilienceController circuit breaker

Modelled from the spec: the repository describes its circuit breaker only
narratively (`ARCHITECTURE.md`, "Circuit Breaker Pattern": Closed /
Open / Half-Open prose) and no implementation exists under the sources —
`reconnect_mqtt` is a plain blocking retry loop.  The definitions below
follow the specification's §4.5 state machine word for word: per guarded
dependency a `CircuitState` with `failure_count` and `opened_at`; in
Closed each failure increments `failure_count` and reaching
`failure_threshold` opens the circuit; in Open every call is rejected
with `CircuitOpen` and no network attempt until `cooldown_period`
elapses, then the breaker moves to HalfOpen; in HalfOpen exactly one
trial call is permitted — success closes the circuit and resets
`failure_count`, failure reopens it and restarts the cooldown. -/

/-- Modelled from the spec: the per-dependency circuit state (§3). -/
inductive CircuitState where
  | Closed
  | Open
  | HalfOpen
deriving DecidableEq, Repr

/-- Modelled from the spec: a guarded dependency's breaker record. -/
structure Breaker where
  state : CircuitState
  failure_count : Nat
  opened_at : Nat
deriving DecidableEq, Repr

/-- The visible outcome of one guarded call: rejected with `CircuitOpen`
(no network attempt), or attempted with the network's success bit. -/
inductive CallOutcome where
  | rejected
  | attempted (ok : Bool)
deriving DecidableEq, Repr

/-- Modelled from the spec: cooldown expiry (§4.5 Open → HalfOpen).  In
Open, once `cooldown_period` has elapsed since `opened_at`, the breaker
transitions to HalfOpen; otherwise — and in every other state — time
passing changes nothing. -/
def breaker_tick (cooldown_period : Nat) (b : Breaker) (now : Nat) :
    Breaker :=
  match b.state with
  | CircuitState.Open =>
    if cooldown_period ≤ now - b.opened_at then
      { b with state := CircuitState.HalfOpen }
    else b
  | _ => b

/-- Modelled from the spec: one guarded call (§4.5).  `netOk` is whether
the network operation would succeed if attempted. -/
def breaker_call (failure_threshold : Nat) (b : Breaker) (now : Nat)
    (netOk : Bool) : Breaker × CallOutcome :=
  match b.state with
  | CircuitState.Closed =>
    if netOk then ({ b with failure_count := 0 }, CallOutcome.attempted true)
    else
      let fc := b.failure_count + 1
      if failure_threshold ≤ fc then
        ({ state := CircuitState.Open, failure_count := fc, opened_at := now },
          CallOutcome.attempted false)
      else ({ b with failure_count := fc }, CallOutcome.attempted false)
  | CircuitState.Open => (b, CallOutcome.rejected)
  | CircuitState.HalfOpen =>
    if netOk then
      ({ state := CircuitState.Closed, failure_count := 0,
         opened_at := b.opened_at }, CallOutcome.attempted true)
    else
      ({ state := CircuitState.Open, failure_count := b.failure_count,
         opened_at := now }, CallOutcome.attempted false)

/-- `n` consecutive failing calls through the breaker. -/
def breaker_fail_run (failure_threshold : Nat) (b : Breaker) (now : Nat) :
    Nat → Breaker
  | 0 => b
  | n + 1 =>
    breaker_fail_run failure_threshold
      (breaker_call failure_threshold b now false).1 now n

theorem breaker_fail_run_opens : ∀ (n ft c t0 now : Nat), c + n = ft →
    0 < n →
    breaker_fail_run ft (Breaker.mk CircuitState.Closed c t0) now n =
      Breaker.mk CircuitState.Open ft now := by
  intro n
  induction n with
  | zero => intro ft c t0 now h h0; exact absurd h0 (by omega)
  | succ n ih =>
    intro ft c t0 now h h0
    by_cases hn : n = 0
    · subst hn
      have hle : ft ≤ c + 1 := by omega
      have hft : c + 1 = ft := by omega
      simp [breaker_fail_run, breaker_call, hle, hft]
    · have hlt : ¬ ft ≤ c + 1 := by omega
      have hrec := ih ft (c + 1) t0 now (by omega) (by omega)
      simp only [breaker_fail_run, breaker_call]
      simp only [Bool.false_eq_true, if_false, hlt]
      exact hrec

/-! ## Claim C8 -/

/-- C8, confirmed against the spec-modelled breaker: starting Closed with
a zero failure count, `failure_threshold` consecutive failures put the
breaker in Open (stamped with the failure time); while Open and within
`cooldown_period` every call is rejected immediately with `CircuitOpen`
and no network attempt, and time alone does not reopen it; once
`cooldown_period` has elapsed the breaker transitions to HalfOpen, where
exactly one trial call is permitted — on success it becomes Closed with
`failure_count` reset to zero, on failure it returns to Open with the
cooldown restarted at the failure time. -/
theorem C8_circuit_breaker :
    (∀ ft t0 now, 0 < ft →
      breaker_fail_run ft (Breaker.mk CircuitState.Closed 0 t0) now ft =
        Breaker.mk CircuitState.Open ft now) ∧
    (∀ ft b now ok, b.state = CircuitState.Open →
      breaker_call ft b now ok = (b, CallOutcome.rejected)) ∧
    (∀ cd b now, b.state = CircuitState.Open → now - b.opened_at < cd →
      breaker_tick cd b now = b) ∧
    (∀ cd b now, b.state = CircuitState.Open → cd ≤ now - b.opened_at →
      breaker_tick cd b now = { b with state := CircuitState.HalfOpen }) ∧
    (∀ ft b now, b.state = CircuitState.HalfOpen →
      breaker_call ft b now true =
        (Breaker.mk CircuitState.Closed 0 b.opened_at,
          CallOutcome.attempted true)) ∧
    (∀ ft b now, b.state = CircuitState.HalfOpen →
      breaker_call ft b now false =
        (Breaker.mk CircuitState.Open b.failure_count now,
          CallOutcome.attempted false)) := by
  refine ⟨?_, ?_, ?_, ?_, ?_, ?_⟩
  · intro ft t0 now h
    exact breaker_fail_run_opens ft ft 0 t0 now (by omega) h
  · intro ft b now ok h
    obtain ⟨st, fc, oa⟩ := b
    cases h
    rfl
  · intro cd b now h hlt
    obtain ⟨st, fc, oa⟩ := b
    cases h
    dsimp only [breaker_tick] at hlt ⊢
    rw [if_neg (by omega)]
  · intro cd b now h hle
    obtain ⟨st, fc, oa⟩ := b
    cases h
    dsimp only [breaker_tick] at hle ⊢
    rw [if_pos hle]
  · intro ft b now h
    obtain ⟨st, fc, oa⟩ := b
    cases h
    rfl
  · intro ft b now h
    obtain ⟨st, fc, oa⟩ := b
    cases h
    rfl

/-- C8, witness: the full life cycle at `failure_threshold = 3`,
`cooldown_period = 10`: three failures open the breaker at time 50, a
call at time 55 is rejected, the tick at time 60 moves it to HalfOpen,
and the trial's success and failure outcomes. -/
theorem C8_circuit_breaker_witness :
    breaker_fail_run 3 (Breaker.mk CircuitState.Closed 0 0) 50 3 =
        Breaker.mk CircuitState.Open 3 50 ∧
      breaker_call 3 (Breaker.mk CircuitState.Open 3 50) 55 true =
        (Breaker.mk CircuitState.Open 3 50, CallOutcome.rejected) ∧
      breaker_tick 10 (Breaker.mk CircuitState.Open 3 50) 55 =
        Breaker.mk CircuitState.Open 3 50 ∧
      breaker_tick 10 (Breaker.mk CircuitState.Open 3 50) 60 =
        Breaker.mk CircuitState.HalfOpen 3 50 ∧
      breaker_call 3 (Breaker.mk CircuitState.HalfOpen 3 50) 61 true =
        (Breaker.mk CircuitState.Closed 0 50, CallOutcome.attempted true) ∧
      breaker_call 3 (Breaker.mk CircuitState.HalfOpen 3 50) 61 false =
        (Breaker.mk CircuitState.Open 3 61, CallOutcome.attempted false) :=
  ⟨C8_circuit_breaker.1 3 0 50 (by decide),
   C8_circuit_breaker.2.1 3 _ 55 true rfl,
   C8_circuit_breaker.2.2.1 10 _ 55 rfl (by decide),
   C8_circuit_breaker.2.2.2.1 10 _ 60 rfl (by decide),
   C8_circuit_breaker.2.2.2.2.1 3 _ 61 rfl,
   C8_circuit_breaker.2.2.2.2.2 3 _ 61 rfl⟩

end ConsultEase
